import Mathlib

/-!
Verification development for the auth-microservice token lifecycle engine.

The Go source is shallowly embedded: JWT strings are modelled as an inductive
`Token` recording the signing secret, the algorithm and the claim payload;
the Redis-backed revocation store is modelled as explicit state passed through
the service operations; times and durations are integers (seconds); bcrypt
hashing is modelled by an injective deterministic function.
-/

/-- The domain error taxonomy of internal/domain/errors/errors.go. -/
inductive DomainError
  | invalidCredentials
  | userNotFound
  | userAlreadyExists
  | invalidEmail
  | weakPassword
  | clientNotFound
  | invalidClient
  | invalidToken
  | expiredToken
  | tokenRevoked
  | invalidTokenType
  | internal
  | unauthorized
  | forbidden
  | badRequest
  | validation
  | notImplemented
deriving DecidableEq, Repr

/-- JWT signing algorithms relevant to the embedding: the HMAC family accepted
by the keyfunc's `SigningMethodHMAC` check, plus a representative non-HMAC
algorithm used for alg-confusion attempts. -/
inductive Alg
  | hs256
  | hs384
  | hs512
  | rs256
deriving DecidableEq, Repr

def Alg.isHMAC : Alg → Bool
  | .hs256 => true
  | .hs384 => true
  | .hs512 => true
  | .rs256 => false

/-- One entry of the "scopes" claim array: a JSON string or some non-string
JSON value (whose precise shape is irrelevant, only that the `.(string)`
type assertion fails on it). -/
inductive ScopeClaim
  | str (s : String)
  | nonString
deriving DecidableEq, Repr

/-- The claim set a signed token carries: the union of the custom claims of
services.CustomClaims (id_citizen, email, role, type), the client-credentials
claims of OAuth2Service.generateAccessToken (client_id, scopes, jti) and the
registered claims (iat, exp, nbf, iss, sub).  `none` means the claim is absent
from the JSON payload. -/
structure JwtPayload where
  id_citizen : Option Int
  email : Option String
  role : Option String
  type : Option String
  client_id : Option String
  scopes : Option (List ScopeClaim)
  jti : Option String
  iat : Option Int
  exp : Option Int
  nbf : Option Int
  iss : Option String
  sub : Option String
deriving DecidableEq, Repr

/-- A bearer token string, abstracted to what a parser can observe of it:
either a structurally well-formed JWT signed with some secret under some
algorithm, or a string that fails parsing altogether. -/
inductive Token
  | signed (secret : String) (alg : Alg) (payload : JwtPayload)
  | malformed
deriving DecidableEq, Repr

/-- golang-jwt v5 registered-claims validation performed inside
ParseWithClaims / Parse with zero leeway: `exp` (when present) must be
strictly in the future, `nbf` (when present) must not be in the future.
`iat` is not verified by default. -/
def claimsValid (now : Int) (p : JwtPayload) : Bool :=
  (match p.exp with
   | some e => decide (now < e)
   | none => true) &&
  (match p.nbf with
   | some n => decide (n ≤ now)
   | none => true)

/-- jwt.ParseWithClaims / jwt.Parse with a keyfunc returning the HMAC secret:
fails on malformed input, on a non-HMAC algorithm (the keyfunc's method check,
or the byte-slice key mismatch for asymmetric algorithms), on a signature made
with a different secret, and on registered-claims validation; otherwise yields
the payload.  All failure modes are collapsed because every caller maps any
parse error to a single error value. -/
def parseJwt (secret : String) (now : Int) : Token → Option JwtPayload
  | .malformed => none
  | .signed s alg p =>
    if alg.isHMAC && s == secret && claimsValid now p then some p else none

/-- domain.TokenClaims: the custom claims returned by JWTService validation. -/
structure TokenClaims where
  idCitizen : Int
  email : String
  role : String
  type : String
deriving DecidableEq, Repr

/-- Decoding a JSON payload into services.CustomClaims: absent fields take
their Go zero values, unknown fields are ignored. -/
def decodeCustomClaims (p : JwtPayload) : TokenClaims :=
  { idCitizen := p.id_citizen.getD 0
    email := p.email.getD ""
    role := p.role.getD ""
    type := p.type.getD "" }

/-- domain.TokenPair (token.go). -/
structure TokenPair where
  accessToken : Token
  refreshToken : Token
  tokenType : String
  expiresIn : Int
deriving DecidableEq, Repr

/-- services.JWTService: the signing secret and the two configured token
lifetimes (seconds). -/
structure JWTService where
  secret : String
  accessTokenDuration : Int
  refreshTokenDuration : Int
deriving DecidableEq, Repr

/-- JWTService.generateToken: builds the claim set and signs it with HS256.
Signing a marshallable claim set with an HMAC key cannot fail, so the
function returns the token directly. -/
def JWTService.generateToken (s : JWTService) (now : Int) (idCitizen : Int)
    (email : String) (role : String) (tokenType : String) (duration : Int) : Token :=
  .signed s.secret .hs256
    { id_citizen := some idCitizen
      email := some email
      role := some role
      type := some tokenType
      client_id := none
      scopes := none
      jti := none
      iat := some now
      exp := some (now + duration)
      nbf := some now
      iss := some "auth-microservice"
      sub := some (toString idCitizen) }

/-- JWTService.GenerateAccessToken. -/
def JWTService.generateAccessToken (s : JWTService) (now : Int) (idCitizen : Int)
    (email : String) (role : String) : Token :=
  s.generateToken now idCitizen email role "access" s.accessTokenDuration

/-- JWTService.GenerateRefreshToken. -/
def JWTService.generateRefreshToken (s : JWTService) (now : Int) (idCitizen : Int)
    (email : String) (role : String) : Token :=
  s.generateToken now idCitizen email role "refresh" s.refreshTokenDuration

/-- JWTService.GenerateTokenPair. -/
def JWTService.generateTokenPair (s : JWTService) (now : Int) (idCitizen : Int)
    (email : String) (role : String) : TokenPair :=
  { accessToken := s.generateAccessToken now idCitizen email role
    refreshToken := s.generateRefreshToken now idCitizen email role
    tokenType := "Bearer"
    expiresIn := s.accessTokenDuration }

/-- JWTService.ValidateToken: parse with HMAC keyfunc (any parse, signature or
registered-claims failure yields ErrInvalidToken), then the explicit
`claims.ExpiresAt.Before(time.Now())` re-check yielding ErrExpiredToken. -/
def JWTService.validateToken (s : JWTService) (now : Int) (t : Token) :
    Except DomainError TokenClaims :=
  match parseJwt s.secret now t with
  | none => .error .invalidToken
  | some p =>
    if (match p.exp with | some e => decide (e < now) | none => false) then
      .error .expiredToken
    else
      .ok (decodeCustomClaims p)

/-- JWTService.ValidateAccessToken: ValidateToken plus the `type = access`
discriminator check. -/
def JWTService.validateAccessToken (s : JWTService) (now : Int) (t : Token) :
    Except DomainError TokenClaims :=
  match s.validateToken now t with
  | .error e => .error e
  | .ok c => if c.type ≠ "access" then .error .invalidTokenType else .ok c

/-- JWTService.ValidateRefreshToken: ValidateToken plus the `type = refresh`
discriminator check. -/
def JWTService.validateRefreshToken (s : JWTService) (now : Int) (t : Token) :
    Except DomainError TokenClaims :=
  match s.validateToken now t with
  | .error e => .error e
  | .ok c => if c.type ≠ "refresh" then .error .invalidTokenType else .ok c

/-- JWTService.GetTokenExpiration: parse (registered-claims validation
included, its keyfunc returning the secret unconditionally), then extract
`exp`; `none` stands for any returned error, which the only caller (Logout)
merely tests for. -/
def JWTService.getTokenExpiration (s : JWTService) (now : Int) (t : Token) : Option Int :=
  match parseJwt s.secret now t with
  | none => none
  | some p => p.exp

/-- Deterministic injective abstraction of bcrypt.GenerateFromPassword, used
to store user passwords and client secrets; bcrypt.CompareHashAndPassword
succeeds exactly when the stored hash was produced from the given input. -/
def bcryptHash (plain : String) : String :=
  "bcrypt$" ++ plain

/-- domain.OAuthClient. -/
structure OAuthClient where
  id : String
  clientID : String
  clientSecret : String
  name : String
  description : String
  scopes : List String
  active : Bool
deriving DecidableEq, Repr

/-- OAuthClient.ValidateSecret: bcrypt comparison of the stored hash with the
presented secret. -/
def OAuthClient.validateSecret (c : OAuthClient) (secret : String) : Bool :=
  c.clientSecret == bcryptHash secret

/-- domain.OAuthTokenClaims. -/
structure OAuthTokenClaims where
  clientID : String
  scopes : List String
  tokenID : String
  issuedAt : Int
  expireAt : Int
  type : String
deriving DecidableEq, Repr

/-- services.OAuth2Service: the shared signing secret and the client token
lifetime (seconds). -/
structure OAuth2Service where
  jwtSecret : String
  accessTokenExpiry : Int
deriving DecidableEq, Repr

/-- OAuth2Service.generateAccessToken: a MapClaims token with client_id,
scopes, a caller-supplied fresh jti (uuid.New), iat, exp and
type=client_credentials, signed HS256; returns the token and expires_in. -/
def OAuth2Service.generateAccessToken (s : OAuth2Service) (now : Int) (jti : String)
    (client : OAuthClient) : Token × Int :=
  (.signed s.jwtSecret .hs256
    { id_citizen := none
      email := none
      role := none
      type := some "client_credentials"
      client_id := some client.clientID
      scopes := some (client.scopes.map .str)
      jti := some jti
      iat := some now
      exp := some (now + s.accessTokenExpiry)
      nbf := none
      iss := none
      sub := none },
   s.accessTokenExpiry)

/-- All entries of the scopes claim must be JSON strings; any non-string entry
fails the per-element `.(string)` assertion. -/
def extractScopes : List ScopeClaim → Option (List String)
  | [] => some []
  | .str s :: rest =>
    match extractScopes rest with
    | some tail => some (s :: tail)
    | none => none
  | .nonString :: _ => none

/-- OAuth2Service.ValidateAccessToken: jwt.Parse with the HMAC keyfunc (any
failure mapped to ErrInvalidToken), then in source order: the
type=client_credentials discriminator (ErrInvalidTokenType on absence or
mismatch), the exp claim (ErrInvalidToken if absent, ErrExpiredToken if
passed), client_id extraction, scopes extraction (ErrInvalidToken when absent
or containing a non-string), and best-effort jti/iat extraction. -/
def OAuth2Service.validateAccessToken (s : OAuth2Service) (now : Int) (t : Token) :
    Except DomainError OAuthTokenClaims :=
  match parseJwt s.jwtSecret now t with
  | none => .error .invalidToken
  | some p =>
    match p.type with
    | none => .error .invalidTokenType
    | some ty =>
      if ty ≠ "client_credentials" then .error .invalidTokenType
      else
        match p.exp with
        | none => .error .invalidToken
        | some e =>
          if e < now then .error .expiredToken
          else
            match p.client_id with
            | none => .error .invalidToken
            | some cid =>
              match p.scopes with
              | none => .error .invalidToken
              | some sc =>
                match extractScopes sc with
                | none => .error .invalidToken
                | some scopes =>
                  .ok { clientID := cid
                        scopes := scopes
                        tokenID := p.jti.getD ""
                        issuedAt := p.iat.getD 0
                        expireAt := e
                        type := ty }

/-- postgres.OAuthClientRepository.GetByClientID over the oauth_clients table
(modelled as a list of rows): `WHERE client_id = $1 AND active = true`; no
matching row is sql.ErrNoRows, which the repository maps to
ErrInvalidCredentials. -/
def getByClientID (db : List OAuthClient) (clientID : String) :
    Except DomainError OAuthClient :=
  match db.find? (fun c => c.clientID == clientID && c.active) with
  | some c => .ok c
  | none => .error .invalidCredentials

/-- OAuth2Service.ClientCredentials composed with the Postgres client
repository: any lookup error is mapped to ErrInvalidCredentials, an inactive
client is rejected with ErrInvalidClient, a failed secret comparison with
ErrInvalidCredentials, otherwise a client-credentials token is issued. -/
def OAuth2Service.clientCredentials (s : OAuth2Service) (db : List OAuthClient)
    (now : Int) (jti : String) (clientID clientSecret : String) :
    Except DomainError (Token × Int) :=
  match getByClientID db clientID with
  | .error _ => .error .invalidCredentials
  | .ok client =>
    if !client.active then .error .invalidClient
    else if !client.validateSecret clientSecret then .error .invalidCredentials
    else .ok (s.generateAccessToken now jti client)

/-- domain.User (with the external citizen identity key). -/
structure User where
  id : String
  email : String
  password : String
  name : String
  role : String
  idCitizen : Int
deriving DecidableEq, Repr

/-- domain.UserPublic: the public projection, without the password hash. -/
structure UserPublic where
  id : String
  email : String
  name : String
  role : String
  idCitizen : Int
deriving DecidableEq, Repr

/-- User.ToPublic. -/
def User.toPublic (u : User) : UserPublic :=
  { id := u.id, email := u.email, name := u.name, role := u.role, idCitizen := u.idCitizen }

/-- User.ComparePassword: bcrypt comparison of the stored hash with the
presented password. -/
def User.comparePassword (u : User) (password : String) : Bool :=
  u.password == bcryptHash password

/-- Modelled from the spec: the 4-argument domain.NewUser constructor (the
variant carrying the external citizen id) is not among the source files; its
validations follow the 3-argument constructor in
internal/domain/models/user.go (non-empty email and name, password of at
least 8 characters), the spec's "hashes password" step uses the bcrypt
abstraction, the role defaults to USER, and the ad-hoc constructor errors are
collapsed to the taxonomy's validation error. The `id` is assigned by the
repository on insert and is immaterial to the claims, so it is left empty. -/
def newUser (email password name : String) (idCitizen : Int) : Except DomainError User :=
  if email == "" then .error .validation
  else if password == "" then .error .validation
  else if password.length < 8 then .error .validation
  else if name == "" then .error .validation
  else .ok { id := ""
             email := email
             password := bcryptHash password
             name := name
             role := "USER"
             idCitizen := idCitizen }

/-- postgres.UserRepository.GetByEmail over the users table (modelled as a
list of rows): no matching row yields ErrUserNotFound. -/
def getUserByEmail (users : List User) (email : String) : Except DomainError User :=
  match users.find? (fun u => u.email == email) with
  | some u => .ok u
  | none => .error .userNotFound

/-- domain.RefreshTokenData (token.go): the session record stored in Redis
for an issued refresh token. -/
structure RefreshTokenData where
  idCitizen : Int
  email : String
  issuedAt : Int
  expiresAt : Int
deriving DecidableEq, Repr

/-- One session record of the refresh_token keyspace, keyed by the refresh
token's own value, with the TTL it was stored under. -/
structure SessionEntry where
  token : Token
  data : RefreshTokenData
  ttl : Int
deriving DecidableEq, Repr

/-- One blacklist entry, keyed by the revoked token's value, with its TTL. -/
structure BlacklistEntry where
  token : Token
  ttl : Int
deriving DecidableEq, Repr

/-- The two keyspaces of the Redis revocation store (redis.TokenRepository),
in the transport-failure-free semantics: `refresh_token:<token>` records and
`blacklist:<token>` sentinels. -/
structure TokenStore where
  refreshTokens : List SessionEntry
  blacklist : List BlacklistEntry
deriving DecidableEq, Repr

/-- TokenRepository.StoreRefreshToken: Redis SET, overwriting any previous
value under the same key. -/
def TokenStore.storeRefreshToken (st : TokenStore) (tok : Token)
    (data : RefreshTokenData) (ttl : Int) : TokenStore :=
  { st with refreshTokens :=
      { token := tok, data := data, ttl := ttl } ::
        st.refreshTokens.filter (fun e => e.token ≠ tok) }

/-- TokenRepository.GetRefreshToken: Redis GET; an absent key is redis.Nil,
mapped to ErrInvalidToken. -/
def TokenStore.getRefreshToken (st : TokenStore) (tok : Token) :
    Except DomainError RefreshTokenData :=
  match st.refreshTokens.find? (fun e => e.token = tok) with
  | some e => .ok e.data
  | none => .error .invalidToken

/-- TokenRepository.DeleteRefreshToken: Redis DEL. -/
def TokenStore.deleteRefreshToken (st : TokenStore) (tok : Token) : TokenStore :=
  { st with refreshTokens := st.refreshTokens.filter (fun e => e.token ≠ tok) }

/-- TokenRepository.BlacklistToken: Redis SET of the sentinel with the given
TTL, overwriting any previous entry under the same key. -/
def TokenStore.blacklistToken (st : TokenStore) (tok : Token) (ttl : Int) : TokenStore :=
  { st with blacklist :=
      { token := tok, ttl := ttl } :: st.blacklist.filter (fun e => e.token ≠ tok) }

/-- TokenRepository.IsTokenBlacklisted: Redis EXISTS. -/
def TokenStore.isTokenBlacklisted (st : TokenStore) (tok : Token) : Bool :=
  st.blacklist.any (fun e => e.token = tok)

/-- The TTL the blacklist currently holds for a token, if blacklisted. -/
def TokenStore.blacklistTTL (st : TokenStore) (tok : Token) : Option Int :=
  match st.blacklist.find? (fun e => e.token = tok) with
  | some e => some e.ttl
  | none => none

/-- services.AuthService: its injected token codec; the user directory and
the revocation store are passed to each operation as explicit state. -/
structure AuthService where
  jwtService : JWTService
deriving DecidableEq, Repr

/-- AuthService.Login: look up the principal by email (ErrUserNotFound
remapped to ErrInvalidCredentials, other lookup failures to ErrInternal),
verify the password hash (ErrInvalidCredentials on mismatch), issue a token
pair, and store the session record keyed by the new refresh token with TTL =
refresh lifetime (a storage failure would be logged without failing the
login; in the failure-free store semantics the record is stored). -/
def AuthService.login (s : AuthService) (users : List User) (st : TokenStore)
    (now : Int) (email password : String) :
    Except DomainError TokenPair × TokenStore :=
  match getUserByEmail users email with
  | .error e =>
    if e = .userNotFound then (.error .invalidCredentials, st)
    else (.error .internal, st)
  | .ok user =>
    if !user.comparePassword password then (.error .invalidCredentials, st)
    else
      let tokenPair := s.jwtService.generateTokenPair now user.idCitizen user.email user.role
      let refreshTokenData : RefreshTokenData :=
        { idCitizen := user.idCitizen
          email := user.email
          issuedAt := now
          expiresAt := now + s.jwtService.refreshTokenDuration }
      (.ok tokenPair,
       st.storeRefreshToken tokenPair.refreshToken refreshTokenData
         s.jwtService.refreshTokenDuration)

/-- AuthService.RefreshToken: validate as a refresh token (propagating the
validation error), reject blacklisted tokens with ErrTokenRevoked, reject
tokens without a session record with ErrInvalidToken, then issue a new pair
from the claims, delete the old session record and store the new one. -/
def AuthService.refreshToken (s : AuthService) (st : TokenStore) (now : Int)
    (refreshToken : Token) : Except DomainError TokenPair × TokenStore :=
  match s.jwtService.validateRefreshToken now refreshToken with
  | .error e => (.error e, st)
  | .ok claims =>
    if st.isTokenBlacklisted refreshToken then (.error .tokenRevoked, st)
    else
      match st.getRefreshToken refreshToken with
      | .error _ => (.error .invalidToken, st)
      | .ok _ =>
        let tokenPair := s.jwtService.generateTokenPair now claims.idCitizen claims.email claims.role
        let st1 := st.deleteRefreshToken refreshToken
        let refreshTokenData : RefreshTokenData :=
          { idCitizen := claims.idCitizen
            email := claims.email
            issuedAt := now
            expiresAt := now + s.jwtService.refreshTokenDuration }
        (.ok tokenPair,
         st1.storeRefreshToken tokenPair.refreshToken refreshTokenData
           s.jwtService.refreshTokenDuration)

/-- AuthService.Logout: validate the access token (failure fails the whole
operation with that error); if GetTokenExpiration succeeds and the remaining
TTL is positive, blacklist the access token for exactly that TTL; if a
refresh token was supplied (`none` models the empty string), delete its
session record.  Both side effects are best-effort and cannot fail in the
failure-free store semantics. -/
def AuthService.logout (s : AuthService) (st : TokenStore) (now : Int)
    (accessToken : Token) (refreshToken : Option Token) :
    Except DomainError Unit × TokenStore :=
  match s.jwtService.validateAccessToken now accessToken with
  | .error e => (.error e, st)
  | .ok _ =>
    let st1 :=
      match s.jwtService.getTokenExpiration now accessToken with
      | some expiresAt =>
        let ttl := expiresAt - now
        if 0 < ttl then st.blacklistToken accessToken ttl else st
      | none => st
    let st2 :=
      match refreshToken with
      | some rt => st1.deleteRefreshToken rt
      | none => st1
    (.ok (), st2)

/-- AuthService.ValidateAccessToken: codec validation, then the blacklist
check yielding ErrTokenRevoked — the canonical "currently usable" check. -/
def AuthService.validateAccessToken (s : AuthService) (st : TokenStore) (now : Int)
    (t : Token) : Except DomainError TokenClaims :=
  match s.jwtService.validateAccessToken now t with
  | .error e => .error e
  | .ok claims =>
    if st.isTokenBlacklisted t then .error .tokenRevoked
    else .ok claims

/-- Outcome of userRepo.Exists for a registration attempt: a boolean, or any
repository failure. -/
inductive ExistsOutcome
  | ok (b : Bool)
  | err
deriving DecidableEq, Repr

/-- Outcome of userRepo.GetByIDCitizen: a user, ErrUserNotFound, or any other
failure — the three cases AuthService.Register distinguishes. -/
inductive GetByIDCitizenOutcome
  | ok (u : User)
  | notFound
  | otherErr
deriving DecidableEq, Repr

/-- Outcome of userRepo.Create: success, a failure that is (or wraps)
ErrUserAlreadyExists — e.g. a uniqueness-constraint violation translated by
the repository — or any other failure. -/
inductive CreateOutcome
  | ok
  | alreadyExists
  | otherErr
deriving DecidableEq, Repr

/-- The user-directory responses observed by one run of AuthService.Register,
leaving the repository behaviour arbitrary. -/
structure UserRepoEnv where
  existsResult : ExistsOutcome
  getByIDCitizenResult : GetByIDCitizenOutcome
  createResult : CreateOutcome
deriving DecidableEq, Repr

/-- AuthService.Register: check email existence (ErrInternal on repository
failure, ErrUserAlreadyExists if taken), then — only for idCitizen > 0 —
check GetByIDCitizen (ErrUserAlreadyExists if some principal is bound to the
id, ErrInternal on a failure other than ErrUserNotFound), construct the user,
and persist it, translating a Create failure that is ErrUserAlreadyExists to
that same error and any other Create failure to ErrInternal.  The returned
flag records whether Create was invoked (the persistence write). -/
def AuthService.register (env : UserRepoEnv) (email password name : String)
    (idCitizen : Int) : Except DomainError UserPublic × Bool :=
  match env.existsResult with
  | .err => (.error .internal, false)
  | .ok true => (.error .userAlreadyExists, false)
  | .ok false =>
    let idCitizenConflict : Option DomainError :=
      if 0 < idCitizen then
        match env.getByIDCitizenResult with
        | .ok _ => some .userAlreadyExists
        | .notFound => none
        | .otherErr => some .internal
      else none
    match idCitizenConflict with
    | some e => (.error e, false)
    | none =>
      match newUser email password name idCitizen with
      | .error e => (.error e, false)
      | .ok user =>
        match env.createResult with
        | .alreadyExists => (.error .userAlreadyExists, true)
        | .otherErr => (.error .internal, true)
        | .ok => (.ok user.toPublic, true)

/-- An inbound broker message as the consumer handler observes it: a body
that fails json.Unmarshal, or one that decodes to a payload with an
idCitizen field (absent fields decode to the zero value). -/
inductive ConsumerMessage
  | malformed
  | payload (idCitizen : Int)
deriving DecidableEq, Repr

/-- The collaborator responses observed by one run of the user.transferred
handler; each call is best-effort, so only success/failure shape matters. -/
structure ConsumerEnv where
  getByIDCitizenResult : Option User
  deleteUserTokensOk : Bool
  deleteUserOk : Bool
deriving DecidableEq, Repr

/-- createUserTransferredHandler (cmd/server/main.go): a nil return
acknowledges the message.  Malformed payloads are acknowledged; a failed
principal lookup (already gone) is acknowledged; the session-record deletion
is best-effort with its error only logged; a failed principal deletion is
still acknowledged to avoid an infinite redelivery loop. -/
def userTransferredHandler (env : ConsumerEnv) (msg : ConsumerMessage) :
    Except Unit Unit :=
  match msg with
  | .malformed => .ok ()
  | .payload _ =>
    match env.getByIDCitizenResult with
    | none => .ok ()
    | some _ =>
      let _tokensDeleted := env.deleteUserTokensOk
      if env.deleteUserOk then .ok () else .ok ()

/-- A raw value stored under a Redis key, as TokenRepository.DeleteUserTokens
observes it: JSON that unmarshals into a domain.RefreshTokenData record, or
bytes that fail json.Unmarshal. -/
inductive RedisValue
  | record (data : RefreshTokenData)
  | garbage
deriving DecidableEq, Repr

/-- Per-call fault model for the scan-based bulk deletion: keys whose GET
fails (transport error, or the key vanished — redis.Nil), keys whose DEL
fails, and whether the SCAN iteration itself reports an error at the end. -/
structure RedisEnv where
  getErrKeys : List String
  delErrKeys : List String
  scanErr : Bool
deriving DecidableEq, Repr

/-- Redis GET inside the deletion loop: `none` for a transport error or an
absent key (both make the loop `continue`). -/
def redisGet (env : RedisEnv) (entries : List (String × RedisValue)) (k : String) :
    Option RedisValue :=
  if k ∈ env.getErrKeys then none
  else
    match entries.find? (fun e => e.1 = k) with
    | some e => some e.2
    | none => none

/-- Redis DEL inside the deletion loop: a failing DEL is logged and leaves
the key in place. -/
def redisDel (env : RedisEnv) (entries : List (String × RedisValue)) (k : String) :
    List (String × RedisValue) :=
  if k ∈ env.delErrKeys then entries
  else entries.filter (fun e => e.1 ≠ k)

/-- The body of TokenRepository.DeleteUserTokens' scan loop, iterating over
the keys the scan yielded: GET each key (continue on error), unmarshal
(continue on error), and DEL it when the record's principal id matches. -/
def deleteUserTokensLoop (env : RedisEnv) (idCitizen : Int) :
    List String → List (String × RedisValue) → List (String × RedisValue)
  | [], entries => entries
  | k :: rest, entries =>
    let entries' :=
      match redisGet env entries k with
      | none => entries
      | some v =>
        match v with
        | .garbage => entries
        | .record data =>
          if data.idCitizen = idCitizen then redisDel env entries k else entries
    deleteUserTokensLoop env idCitizen rest entries'

/-- TokenRepository.DeleteUserTokens: scan the `refresh_token:*` keyspace,
run the deletion loop over the yielded keys, and fail only when the scan
iteration itself reports an error (the already-performed deletions persist). -/
def deleteUserTokens (env : RedisEnv) (entries : List (String × RedisValue))
    (idCitizen : Int) : Except Unit Unit × List (String × RedisValue) :=
  let keys := (entries.filter (fun e => "refresh_token:".isPrefixOf e.1)).map Prod.fst
  let final := deleteUserTokensLoop env idCitizen keys entries
  (if env.scanErr then .error () else .ok (), final)

lemma sessionFind_filter_ne (l : List SessionEntry) (r : Token) :
    (l.filter (fun e => e.token ≠ r)).find? (fun e => e.token = r) = none := by
  apply List.find?_eq_none.mpr
  intro e he
  have h := (List.mem_filter.mp he).2
  simpa using h

lemma blacklistAny_filter_of_false (l : List BlacklistEntry) (r : Token)
    (q : BlacklistEntry → Bool) (h : l.any (fun e => e.token = r) = false) :
    (l.filter q).any (fun e => e.token = r) = false := by
  rw [List.any_eq_false] at h ⊢
  intro e he
  exact h e (List.mem_filter.mp he).1

lemma validateToken_type_of_access (j : JWTService) (now : Int) (t : Token)
    (c : TokenClaims) (h : j.validateAccessToken now t = .ok c) :
    j.validateToken now t = .ok c ∧ c.type = "access" := by
  unfold JWTService.validateAccessToken at h
  cases hv : j.validateToken now t with
  | error e => rw [hv] at h; cases h
  | ok c0 =>
    rw [hv] at h
    by_cases hty : c0.type = "access"
    · simp [hty] at h
      subst h
      exact ⟨rfl, hty⟩
    · simp [hty] at h

lemma validateToken_type_of_refresh (j : JWTService) (now : Int) (t : Token)
    (c : TokenClaims) (h : j.validateRefreshToken now t = .ok c) :
    j.validateToken now t = .ok c ∧ c.type = "refresh" := by
  unfold JWTService.validateRefreshToken at h
  cases hv : j.validateToken now t with
  | error e => rw [hv] at h; cases h
  | ok c0 =>
    rw [hv] at h
    by_cases hty : c0.type = "refresh"
    · simp [hty] at h
      subst h
      exact ⟨rfl, hty⟩
    · simp [hty] at h

lemma access_refresh_disjoint (j : JWTService) (now : Int) (t : Token)
    (c rc : TokenClaims) (ha : j.validateAccessToken now t = .ok c)
    (hr : j.validateRefreshToken now t = .ok rc) : False := by
  obtain ⟨hva, hta⟩ := validateToken_type_of_access j now t c ha
  obtain ⟨hvr, htr⟩ := validateToken_type_of_refresh j now t rc hr
  rw [hva] at hvr
  injection hvr with hcr
  subst hcr
  rw [hta] at htr
  exact absurd htr (by decide)

/-- C3: for every subject, email and role (and every positive configured
access-token lifetime), validating the access token of a freshly issued pair
succeeds and returns claims equal to the inputs with type "access". -/
theorem C3_issuance_validation_roundtrip (s : JWTService) (now idCitizen : Int)
    (email role : String) (h : 0 < s.accessTokenDuration) :
    s.validateAccessToken now (s.generateTokenPair now idCitizen email role).accessToken
      = .ok { idCitizen := idCitizen, email := email, role := role, type := "access" } := by
  have h1 : now < now + s.accessTokenDuration := by omega
  have h2 : ¬ (now + s.accessTokenDuration < now) := by omega
  simp [JWTService.generateTokenPair, JWTService.generateAccessToken,
        JWTService.generateToken, JWTService.validateAccessToken,
        JWTService.validateToken, parseJwt, claimsValid, Alg.isHMAC,
        decodeCustomClaims, h1, h2]

/-- Witness for C3 at a concrete configuration and principal. -/
theorem C3_issuance_validation_roundtrip_witness :
    (0 : Int) < (900 : Int) ∧
    JWTService.validateAccessToken
        { secret := "0123456789abcdef0123456789abcdef",
          accessTokenDuration := 900, refreshTokenDuration := 604800 } 0
        (JWTService.generateTokenPair
          { secret := "0123456789abcdef0123456789abcdef",
            accessTokenDuration := 900, refreshTokenDuration := 604800 }
          0 7 "user@example.com" "USER").accessToken
      = .ok { idCitizen := 7, email := "user@example.com", role := "USER", type := "access" } :=
  ⟨by decide,
   C3_issuance_validation_roundtrip
     { secret := "0123456789abcdef0123456789abcdef",
       accessTokenDuration := 900, refreshTokenDuration := 604800 }
     0 7 "user@example.com" "USER" (by decide)⟩

/-- C9: the deprovisioning consumer handler acknowledges every inbound
message — malformed payloads, missing principals and failing downstream
deletions included — and doing so twice for the same message succeeds both
times. -/
theorem C9_consumer_acks_every_message (env env2 : ConsumerEnv) (msg : ConsumerMessage) :
    userTransferredHandler env msg = .ok () ∧
    userTransferredHandler env2 msg = .ok () := by
  constructor <;>
  · cases msg with
    | malformed => rfl
    | payload idCitizen =>
      first
      | (cases henv : ConsumerEnv.getByIDCitizenResult env with
         | none => simp [userTransferredHandler, henv]
         | some u => simp [userTransferredHandler, henv])
      | (cases henv : ConsumerEnv.getByIDCitizenResult env2 with
         | none => simp [userTransferredHandler, henv]
         | some u => simp [userTransferredHandler, henv])

lemma validateToken_parse_none (s : JWTService) (now : Int) (t : Token)
    (hp : parseJwt s.secret now t = none) :
    s.validateToken now t = .error .invalidToken := by
  unfold JWTService.validateToken
  rw [hp]

lemma validateToken_parse_some (s : JWTService) (now : Int) (t : Token)
    (p : JwtPayload) (hp : parseJwt s.secret now t = some p) :
    s.validateToken now t =
      if (match p.exp with | some e => decide (e < now) | none => false) then
        .error .expiredToken
      else
        .ok (decodeCustomClaims p) := by
  unfold JWTService.validateToken
  rw [hp]

lemma userToken_fails_client_validator (j : JWTService) (o : OAuth2Service)
    (now : Int) (t : Token) (c : TokenClaims) (hsec : o.jwtSecret = j.secret)
    (hv : j.validateToken now t = .ok c)
    (ht : c.type = "access" ∨ c.type = "refresh") :
    o.validateAccessToken now t = .error .invalidTokenType := by
  cases hp : parseJwt j.secret now t with
  | none => rw [validateToken_parse_none j now t hp] at hv; cases hv
  | some p =>
    rw [validateToken_parse_some j now t p hp] at hv
    split at hv
    · cases hv
    · injection hv with hc
      subst hc
      unfold OAuth2Service.validateAccessToken
      rw [hsec, hp]
      cases hpt : p.type with
      | none =>
        rcases ht with ht | ht <;>
          (simp [decodeCustomClaims, hpt] at ht)
      | some ty =>
        have hty : ty = (decodeCustomClaims p).type := by
          simp [decodeCustomClaims, hpt]
        rcases ht with ht | ht <;>
          (rw [ht] at hty; subst hty; simp [hpt])

/-- C4: the type discriminator is enforced on every validator: a valid
refresh token fails access validation with InvalidTokenType and vice versa;
a client-credentials token (signed with the shared secret, within its
lifetime) fails both user-token validators with InvalidTokenType; and a
valid user token (access or refresh) fails the client-token validator with
InvalidTokenType. -/
theorem C4_token_type_separation :
    (∀ (s : JWTService) (now : Int) (t : Token) (c : TokenClaims),
       s.validateRefreshToken now t = .ok c →
       s.validateAccessToken now t = .error .invalidTokenType) ∧
    (∀ (s : JWTService) (now : Int) (t : Token) (c : TokenClaims),
       s.validateAccessToken now t = .ok c →
       s.validateRefreshToken now t = .error .invalidTokenType) ∧
    (∀ (j : JWTService) (o : OAuth2Service) (now : Int) (jti : String) (client : OAuthClient),
       o.jwtSecret = j.secret → 0 < o.accessTokenExpiry →
       j.validateAccessToken now (o.generateAccessToken now jti client).1
           = .error .invalidTokenType ∧
       j.validateRefreshToken now (o.generateAccessToken now jti client).1
           = .error .invalidTokenType) ∧
    (∀ (j : JWTService) (o : OAuth2Service) (now : Int) (t : Token) (c : TokenClaims),
       o.jwtSecret = j.secret →
       j.validateAccessToken now t = .ok c ∨ j.validateRefreshToken now t = .ok c →
       o.validateAccessToken now t = .error .invalidTokenType) := by
  refine ⟨?_, ?_, ?_, ?_⟩
  · intro s now t c h
    obtain ⟨hv, ht⟩ := validateToken_type_of_refresh s now t c h
    simp [JWTService.validateAccessToken, hv, ht]
  · intro s now t c h
    obtain ⟨hv, ht⟩ := validateToken_type_of_access s now t c h
    simp [JWTService.validateRefreshToken, hv, ht]
  · intro j o now jti client hsec hpos
    have h1 : now < now + o.accessTokenExpiry := by omega
    have h2 : ¬ (now + o.accessTokenExpiry < now) := by omega
    constructor <;>
      simp [OAuth2Service.generateAccessToken, JWTService.validateAccessToken,
            JWTService.validateRefreshToken, JWTService.validateToken, parseJwt,
            claimsValid, Alg.isHMAC, decodeCustomClaims, hsec, h1, h2]
  · intro j o now t c hsec h
    rcases h with h | h
    · obtain ⟨hv, ht⟩ := validateToken_type_of_access j now t c h
      exact userToken_fails_client_validator j o now t c hsec hv (Or.inl ht)
    · obtain ⟨hv, ht⟩ := validateToken_type_of_refresh j now t c h
      exact userToken_fails_client_validator j o now t c hsec hv (Or.inr ht)

/-- Example configuration: the token codec with a 32-byte secret, 15-minute
access tokens and 7-day refresh tokens. -/
def exJwt : JWTService :=
  { secret := "0123456789abcdef0123456789abcdef"
    accessTokenDuration := 900
    refreshTokenDuration := 604800 }

/-- Example client-credentials coordinator sharing the codec's secret. -/
def exOAuth : OAuth2Service :=
  { jwtSecret := "0123456789abcdef0123456789abcdef"
    accessTokenExpiry := 900 }

/-- Example active OAuth client. -/
def exClient : OAuthClient :=
  { id := "row-1"
    clientID := "svc"
    clientSecret := bcryptHash "s3cret-value"
    name := "svc"
    description := ""
    scopes := ["read"]
    active := true }

/-- Example access token issued at time 0 for principal 7. -/
def exAccess : Token := exJwt.generateAccessToken 0 7 "user@example.com" "USER"

/-- Example refresh token issued at time 0 for principal 7. -/
def exRefresh : Token := exJwt.generateRefreshToken 0 7 "user@example.com" "USER"

/-- Witness for C4 at concrete tokens: the example refresh token fails access
validation, the example access token fails refresh validation, a freshly
issued client-credentials token fails both user validators, and the example
access token fails the client-token validator — all with InvalidTokenType. -/
theorem C4_token_type_separation_witness :
    exJwt.validateAccessToken 0 exRefresh = .error .invalidTokenType ∧
    exJwt.validateRefreshToken 0 exAccess = .error .invalidTokenType ∧
    exJwt.validateAccessToken 0 (exOAuth.generateAccessToken 0 "jti-1" exClient).1
        = .error .invalidTokenType ∧
    exJwt.validateRefreshToken 0 (exOAuth.generateAccessToken 0 "jti-1" exClient).1
        = .error .invalidTokenType ∧
    exOAuth.validateAccessToken 0 exAccess = .error .invalidTokenType :=
  ⟨C4_token_type_separation.1 exJwt 0 exRefresh
      { idCitizen := 7, email := "user@example.com", role := "USER", type := "refresh" } rfl,
   C4_token_type_separation.2.1 exJwt 0 exAccess
      { idCitizen := 7, email := "user@example.com", role := "USER", type := "access" } rfl,
   (C4_token_type_separation.2.2.1 exJwt exOAuth 0 "jti-1" exClient rfl (by decide)).1,
   (C4_token_type_separation.2.2.1 exJwt exOAuth 0 "jti-1" exClient rfl (by decide)).2,
   C4_token_type_separation.2.2.2 exJwt exOAuth 0 exAccess
      { idCitizen := 7, email := "user@example.com", role := "USER", type := "access" }
      rfl (Or.inl rfl)⟩

/-- C5 (code behaviour at the claim's inputs): for every token whose
signature is valid under the configured HMAC secret but whose expiry has
passed, JWTService.ValidateToken and OAuth2Service.ValidateAccessToken both
return InvalidToken — the library's parse-time claim validation rejects the
expired token before either function's explicit ExpiredToken branch can
run. -/
theorem C5_expired_signature_valid_token_yields_invalidToken :
    (∀ (s : JWTService) (now : Int) (p : JwtPayload) (e : Int),
       p.exp = some e → e < now →
       s.validateToken now (.signed s.secret .hs256 p) = .error .invalidToken) ∧
    (∀ (o : OAuth2Service) (now : Int) (p : JwtPayload) (e : Int),
       p.exp = some e → e < now →
       o.validateAccessToken now (.signed o.jwtSecret .hs256 p) = .error .invalidToken) := by
  constructor
  · intro s now p e hexp hlt
    have h : ¬ (now < e) := by omega
    simp [JWTService.validateToken, parseJwt, claimsValid, Alg.isHMAC, hexp, h]
  · intro o now p e hexp hlt
    have h : ¬ (now < e) := by omega
    simp [OAuth2Service.validateAccessToken, parseJwt, claimsValid, Alg.isHMAC, hexp, h]

/-- Example payload of an access token that expired 10 seconds before the
evaluation instant 0, signed with the configured secret. -/
def exExpiredPayload : JwtPayload :=
  { id_citizen := some 7
    email := some "user@example.com"
    role := some "USER"
    type := some "access"
    client_id := none
    scopes := none
    jti := none
    iat := some (-910)
    exp := some (-10)
    nbf := some (-910)
    iss := some "auth-microservice"
    sub := some "7" }

/-- Witness for C5 at the concrete expired token. -/
theorem C5_expired_signature_valid_token_yields_invalidToken_witness :
    exJwt.validateToken 0 (.signed exJwt.secret .hs256 exExpiredPayload)
        = .error .invalidToken ∧
    exOAuth.validateAccessToken 0 (.signed exOAuth.jwtSecret .hs256 exExpiredPayload)
        = .error .invalidToken :=
  ⟨C5_expired_signature_valid_token_yields_invalidToken.1 exJwt 0 exExpiredPayload
      (-10) rfl (by decide),
   C5_expired_signature_valid_token_yields_invalidToken.2 exOAuth 0 exExpiredPayload
      (-10) rfl (by decide)⟩

/-- Example OAuth client record that exists but is deactivated. -/
def exInactiveClient : OAuthClient :=
  { id := "row-2"
    clientID := "svc-off"
    clientSecret := bcryptHash "s3cret-value"
    name := "svc-off"
    description := ""
    scopes := ["read"]
    active := false }

/-- Counterexample for C6: a client whose record exists with active = false
and whose correct secret is presented yields InvalidCredentials, not the
claimed InvalidClient — GetByClientID's `AND active = true` filter reports
the deactivated record as absent. -/
theorem C6_deactivated_client_counterexample :
    OAuth2Service.clientCredentials exOAuth [exInactiveClient] 0 "jti-1"
        "svc-off" "s3cret-value" = .error .invalidCredentials ∧
    DomainError.invalidCredentials ≠ DomainError.invalidClient :=
  ⟨rfl, by decide⟩

/-- C6 (amended): through the Postgres repository a deactivated client is
indistinguishable from an absent one — whenever every record carrying the
requested client_id is inactive (in particular when the one existing record
is deactivated), clientCredentials returns InvalidCredentials; and the
composed flow can never return InvalidClient, because the lookup only ever
yields active clients. -/
theorem C6_deactivated_client_invalidCredentials :
    (∀ (s : OAuth2Service) (db : List OAuthClient) (now : Int)
       (jti clientID secret : String),
       (∀ c ∈ db, c.clientID = clientID → c.active = false) →
       s.clientCredentials db now jti clientID secret = .error .invalidCredentials) ∧
    (∀ (s : OAuth2Service) (db : List OAuthClient) (now : Int)
       (jti clientID secret : String),
       s.clientCredentials db now jti clientID secret ≠ .error .invalidClient) := by
  constructor
  · intro s db now jti clientID secret h
    have hfind : db.find? (fun c => c.clientID == clientID && c.active) = none := by
      apply List.find?_eq_none.mpr
      intro c hc
      simp only [Bool.and_eq_true, beq_iff_eq, not_and]
      intro h1
      rw [h c hc h1]
      simp
    simp [OAuth2Service.clientCredentials, getByClientID, hfind]
  · intro s db now jti clientID secret
    unfold OAuth2Service.clientCredentials getByClientID
    cases hfind : db.find? (fun c => c.clientID == clientID && c.active) with
    | none => simp
    | some client =>
      have hact := List.find?_some hfind
      simp only [Bool.and_eq_true, beq_iff_eq] at hact
      simp [hact.2]
      split <;> simp

/-- Witness for C6's amended statement at the concrete deactivated client. -/
theorem C6_deactivated_client_invalidCredentials_witness :
    OAuth2Service.clientCredentials exOAuth [exInactiveClient] 77 "jti-2"
        "svc-off" "anything" = .error .invalidCredentials :=
  C6_deactivated_client_invalidCredentials.1 exOAuth [exInactiveClient] 77 "jti-2"
    "svc-off" "anything"
    (by
      intro c hc _
      rcases List.mem_singleton.mp hc with rfl
      rfl)

/-- Example registered user whose stored hash matches "correct-password". -/
def exUser : User :=
  { id := "u1"
    email := "real@x.com"
    password := bcryptHash "correct-password"
    name := "Real User"
    role := "USER"
    idCitizen := 7 }

/-- C7: when one login attempt uses an email with no registered principal and
another uses a registered email with a non-matching password, Login returns
the identical error value InvalidCredentials in both runs. -/
theorem C7_login_anti_enumeration (s : AuthService) (users : List User)
    (st : TokenStore) (now : Int) (email1 pass1 email2 pass2 : String) (u : User)
    (h1 : users.find? (fun v => v.email == email1) = none)
    (h2 : users.find? (fun v => v.email == email2) = some u)
    (h3 : u.comparePassword pass2 = false) :
    (s.login users st now email1 pass1).1 = .error .invalidCredentials ∧
    (s.login users st now email2 pass2).1 = .error .invalidCredentials ∧
    (s.login users st now email1 pass1).1 = (s.login users st now email2 pass2).1 := by
  have ha : (s.login users st now email1 pass1).1 = .error .invalidCredentials := by
    simp [AuthService.login, getUserByEmail, h1]
  have hb : (s.login users st now email2 pass2).1 = .error .invalidCredentials := by
    simp [AuthService.login, getUserByEmail, h2, h3]
  exact ⟨ha, hb, by rw [ha, hb]⟩

/-- Witness for C7: an unknown email and a wrong password against the example
directory produce the same InvalidCredentials value. -/
theorem C7_login_anti_enumeration_witness :
    (AuthService.login ⟨exJwt⟩ [exUser] { refreshTokens := [], blacklist := [] } 0
        "nobody@x.com" "any").1 = .error .invalidCredentials ∧
    (AuthService.login ⟨exJwt⟩ [exUser] { refreshTokens := [], blacklist := [] } 0
        "real@x.com" "wrongpass").1 = .error .invalidCredentials ∧
    (AuthService.login ⟨exJwt⟩ [exUser] { refreshTokens := [], blacklist := [] } 0
        "nobody@x.com" "any").1 =
      (AuthService.login ⟨exJwt⟩ [exUser] { refreshTokens := [], blacklist := [] } 0
        "real@x.com" "wrongpass").1 :=
  C7_login_anti_enumeration ⟨exJwt⟩ [exUser] { refreshTokens := [], blacklist := [] } 0
    "nobody@x.com" "any" "real@x.com" "wrongpass" exUser rfl rfl rfl

/-- C8: Register returns UserAlreadyExists when the email exists (checked
first, before everything else) or when idCitizen > 0 is already bound to a
principal — in both cases without invoking the persistence write; a Create
failure signalling "already exists" (the uniqueness-constraint race) is
translated to the same UserAlreadyExists; and on success the principal is
persisted and its public projection returned. -/
theorem C8_register_duplicate_handling (env : UserRepoEnv)
    (email password name : String) (idCitizen : Int) :
    (env.existsResult = .ok true →
       AuthService.register env email password name idCitizen
         = (.error .userAlreadyExists, false)) ∧
    (∀ u, env.existsResult = .ok false → 0 < idCitizen →
       env.getByIDCitizenResult = .ok u →
       AuthService.register env email password name idCitizen
         = (.error .userAlreadyExists, false)) ∧
    (∀ user, env.existsResult = .ok false →
       (0 < idCitizen → env.getByIDCitizenResult = .notFound) →
       newUser email password name idCitizen = .ok user →
       env.createResult = .alreadyExists →
       AuthService.register env email password name idCitizen
         = (.error .userAlreadyExists, true)) ∧
    (∀ user, env.existsResult = .ok false →
       (0 < idCitizen → env.getByIDCitizenResult = .notFound) →
       newUser email password name idCitizen = .ok user →
       env.createResult = .ok →
       AuthService.register env email password name idCitizen
         = (.ok user.toPublic, true)) := by
  refine ⟨?_, ?_, ?_, ?_⟩
  · intro hex
    simp [AuthService.register, hex]
  · intro u hex hpos hget
    simp [AuthService.register, hex, hpos, hget]
  · intro user hex hid hnew hcreate
    by_cases hpos : 0 < idCitizen
    · simp [AuthService.register, hex, hpos, hid hpos, hnew, hcreate]
    · simp [AuthService.register, hex, hpos, hnew, hcreate]
  · intro user hex hid hnew hcreate
    by_cases hpos : 0 < idCitizen
    · simp [AuthService.register, hex, hpos, hid hpos, hnew, hcreate]
    · simp [AuthService.register, hex, hpos, hnew, hcreate]

/-- Witness for C8: a Create that reports "already exists" after both
existence checks passed is surfaced as UserAlreadyExists with the write
attempted. -/
theorem C8_register_duplicate_handling_witness :
    AuthService.register
        { existsResult := .ok false, getByIDCitizenResult := .notFound,
          createResult := .alreadyExists }
        "test@example.com" "password123" "Name" 123
      = (.error .userAlreadyExists, true) :=
  (C8_register_duplicate_handling
      { existsResult := .ok false, getByIDCitizenResult := .notFound,
        createResult := .alreadyExists }
      "test@example.com" "password123" "Name" 123).2.2.1
    { id := "", email := "test@example.com", password := bcryptHash "password123",
      name := "Name", role := "USER", idCitizen := 123 }
    rfl (fun _ => rfl) rfl rfl

/-- C2: RefreshToken performs its checks in source order — refresh-token
validation (propagating that error), blacklist membership (TokenRevoked),
session-record existence (InvalidToken, which also rejects signature-valid
tokens with no record, e.g. replay after rotation) — and only when all three
pass does it issue a new pair from the claims' subject/email/role, delete the
old session record and store the new one. -/
theorem C2_refresh_check_order (s : AuthService) (st : TokenStore) (now : Int)
    (tok : Token) :
    (∀ e, s.jwtService.validateRefreshToken now tok = .error e →
       s.refreshToken st now tok = (.error e, st)) ∧
    (∀ c, s.jwtService.validateRefreshToken now tok = .ok c →
       st.isTokenBlacklisted tok = true →
       s.refreshToken st now tok = (.error .tokenRevoked, st)) ∧
    (∀ c, s.jwtService.validateRefreshToken now tok = .ok c →
       st.isTokenBlacklisted tok = false →
       st.refreshTokens.find? (fun e => e.token = tok) = none →
       s.refreshToken st now tok = (.error .invalidToken, st)) ∧
    (∀ c entry, s.jwtService.validateRefreshToken now tok = .ok c →
       st.isTokenBlacklisted tok = false →
       st.refreshTokens.find? (fun e => e.token = tok) = some entry →
       s.refreshToken st now tok =
         (.ok (s.jwtService.generateTokenPair now c.idCitizen c.email c.role),
          (st.deleteRefreshToken tok).storeRefreshToken
            (s.jwtService.generateTokenPair now c.idCitizen c.email c.role).refreshToken
            { idCitizen := c.idCitizen, email := c.email, issuedAt := now,
              expiresAt := now + s.jwtService.refreshTokenDuration }
            s.jwtService.refreshTokenDuration)) := by
  refine ⟨?_, ?_, ?_, ?_⟩
  · intro e hv
    simp [AuthService.refreshToken, hv]
  · intro c hv hbl
    simp [AuthService.refreshToken, hv, hbl]
  · intro c hv hbl hfind
    simp [AuthService.refreshToken, hv, hbl, TokenStore.getRefreshToken, hfind]
  · intro c entry hv hbl hfind
    simp [AuthService.refreshToken, hv, hbl, TokenStore.getRefreshToken, hfind]

/-- Example session record stored for the example refresh token. -/
def exSession : RefreshTokenData :=
  { idCitizen := 7, email := "user@example.com", issuedAt := 0, expiresAt := 604800 }

/-- Example store state right after the example login: one session record,
empty blacklist. -/
def exStore : TokenStore :=
  { refreshTokens := [{ token := exRefresh, data := exSession, ttl := 604800 }]
    blacklist := [] }

/-- Witness for C2 on the success path at the concrete store. -/
theorem C2_refresh_check_order_witness :
    AuthService.refreshToken ⟨exJwt⟩ exStore 0 exRefresh =
      (.ok (exJwt.generateTokenPair 0 7 "user@example.com" "USER"),
       (exStore.deleteRefreshToken exRefresh).storeRefreshToken
         (exJwt.generateTokenPair 0 7 "user@example.com" "USER").refreshToken
         { idCitizen := 7, email := "user@example.com", issuedAt := 0,
           expiresAt := 0 + 604800 }
         604800) :=
  (C2_refresh_check_order ⟨exJwt⟩ exStore 0 exRefresh).2.2.2
    { idCitizen := 7, email := "user@example.com", role := "USER", type := "refresh" }
    { token := exRefresh, data := exSession, ttl := 604800 }
    rfl rfl rfl

/-- C1: for an access token that validates and still has remaining lifetime,
Logout succeeds, blacklists it for exactly its remaining TTL, makes the
canonical validateAccessToken check fail with TokenRevoked, and deletes the
supplied refresh token's session record so that a subsequent refresh with it
(valid and not itself blacklisted) fails with InvalidToken; and Logout fails
with the validation error whenever the access token does not validate. -/
theorem C1_logout_revokes_tokens :
    (∀ (s : AuthService) (st : TokenStore) (now : Int) (a r : Token)
       (c : TokenClaims) (e : Int),
       s.jwtService.validateAccessToken now a = .ok c →
       s.jwtService.getTokenExpiration now a = some e →
       now < e →
       (s.logout st now a (some r)).1 = .ok () ∧
       ((s.logout st now a (some r)).2).blacklistTTL a = some (e - now) ∧
       s.validateAccessToken ((s.logout st now a (some r)).2) now a
         = .error .tokenRevoked ∧
       (∀ rc, s.jwtService.validateRefreshToken now r = .ok rc →
          st.isTokenBlacklisted r = false →
          (s.refreshToken ((s.logout st now a (some r)).2) now r).1
            = .error .invalidToken)) ∧
    (∀ (s : AuthService) (st : TokenStore) (now : Int) (a : Token)
       (r : Option Token) (err : DomainError),
       s.jwtService.validateAccessToken now a = .error err →
       s.logout st now a r = (.error err, st)) := by
  constructor
  · intro s st now a r c e hval hexp hlt
    have httl : (0 : Int) < e - now := by omega
    have hlog : s.logout st now a (some r)
        = (.ok (), (st.blacklistToken a (e - now)).deleteRefreshToken r) := by
      simp [AuthService.logout, hval, hexp, httl]
    refine ⟨by rw [hlog], ?_, ?_, ?_⟩
    · rw [hlog]
      simp [TokenStore.deleteRefreshToken, TokenStore.blacklistToken,
            TokenStore.blacklistTTL, List.find?]
    · rw [hlog]
      simp [AuthService.validateAccessToken, hval, TokenStore.isTokenBlacklisted,
            TokenStore.deleteRefreshToken, TokenStore.blacklistToken, List.any_cons]
    · intro rc hr hbl
      have hne : a ≠ r := by
        intro hh
        exact access_refresh_disjoint s.jwtService now a c rc hval (hh ▸ hr)
      rw [hlog]
      have hbl2 : ((st.blacklistToken a (e - now)).deleteRefreshToken r).isTokenBlacklisted r
          = false := by
        simp only [TokenStore.deleteRefreshToken, TokenStore.blacklistToken,
                   TokenStore.isTokenBlacklisted, List.any_cons]
        rw [Bool.or_eq_false_iff]
        constructor
        · simpa using hne
        · exact blacklistAny_filter_of_false st.blacklist r _ hbl
      have hfind : (((st.blacklistToken a (e - now)).deleteRefreshToken r).refreshTokens).find?
          (fun x => x.token = r) = none := by
        simp only [TokenStore.deleteRefreshToken, TokenStore.blacklistToken]
        exact sessionFind_filter_ne st.refreshTokens r
      simp [AuthService.refreshToken, hr, hbl2, TokenStore.getRefreshToken, hfind]
  · intro s st now a r err hval
    simp [AuthService.logout, hval]

/-- Witness for C1 at the concrete configuration: logging out the example
access token (with the example refresh token) succeeds, blacklists it for its
remaining 900 seconds, revokes it for the canonical check, and invalidates
the example refresh token. -/
theorem C1_logout_revokes_tokens_witness :
    (AuthService.logout ⟨exJwt⟩ exStore 0 exAccess (some exRefresh)).1 = .ok () ∧
    ((AuthService.logout ⟨exJwt⟩ exStore 0 exAccess (some exRefresh)).2).blacklistTTL exAccess
      = some (900 - 0) ∧
    AuthService.validateAccessToken ⟨exJwt⟩
        ((AuthService.logout ⟨exJwt⟩ exStore 0 exAccess (some exRefresh)).2) 0 exAccess
      = .error .tokenRevoked ∧
    (AuthService.refreshToken ⟨exJwt⟩
        ((AuthService.logout ⟨exJwt⟩ exStore 0 exAccess (some exRefresh)).2) 0 exRefresh).1
      = .error .invalidToken := by
  have h := C1_logout_revokes_tokens.1 ⟨exJwt⟩ exStore 0 exAccess exRefresh
    { idCitizen := 7, email := "user@example.com", role := "USER", type := "access" }
    900 rfl rfl (by decide)
  exact ⟨h.1, h.2.1, h.2.2.1,
    h.2.2.2 { idCitizen := 7, email := "user@example.com", role := "USER", type := "refresh" }
      rfl rfl⟩

/-- A key's entry is actually removed by the deletion loop exactly when its
GET succeeds, its value unmarshals to a record whose principal id matches,
and its DEL succeeds. -/
def removableVal (env : RedisEnv) (idCitizen : Int) (e : String × RedisValue) : Bool :=
  decide (e.1 ∉ env.getErrKeys) &&
  (match e.2 with
   | .record d => decide (d.idCitizen = idCitizen)
   | .garbage => false) &&
  decide (e.1 ∉ env.delErrKeys)

lemma key_unique {entries : List (String × RedisValue)}
    (h : (entries.map Prod.fst).Nodup) {e1 e2 : String × RedisValue}
    (h1 : e1 ∈ entries) (h2 : e2 ∈ entries) (hk : e1.1 = e2.1) : e1 = e2 := by
  rw [List.Nodup, List.pairwise_map] at h
  by_contra hne
  have hsym : Symmetric (fun a b : String × RedisValue => a.1 ≠ b.1) :=
    fun a b hab hba => hab hba.symm
  exact List.Pairwise.forall hsym h h1 h2 hne hk

lemma find_key_of_mem {entries : List (String × RedisValue)}
    (h : (entries.map Prod.fst).Nodup) {e : String × RedisValue}
    (he : e ∈ entries) :
    entries.find? (fun x => x.1 = e.1) = some e := by
  cases hf : entries.find? (fun x => x.1 = e.1) with
  | none =>
    have := List.find?_eq_none.mp hf e he
    simp at this
  | some e0 =>
    have h1 := List.find?_some hf
    have h2 := List.mem_of_find?_eq_some hf
    simp only [decide_eq_true_eq] at h1
    rw [key_unique h h2 he h1]

lemma filter_keep_step (env : RedisEnv) (idCitizen : Int) (k : String)
    (rest : List String) (entries : List (String × RedisValue))
    (hk : ∀ e ∈ entries, e.1 = k → removableVal env idCitizen e = false) :
    entries.filter (fun e => !(decide (e.1 ∈ k :: rest) && removableVal env idCitizen e))
      = entries.filter (fun e => !(decide (e.1 ∈ rest) && removableVal env idCitizen e)) := by
  apply List.filter_congr
  intro e he
  by_cases hek : e.1 = k
  · rw [hk e he hek]
    simp
  · have hmem : decide (e.1 ∈ k :: rest) = decide (e.1 ∈ rest) := by
      apply decide_eq_decide.mpr
      simp [List.mem_cons, hek]
    rw [hmem]

lemma filter_delete_step (env : RedisEnv) (idCitizen : Int) (k : String)
    (rest : List String) (entries : List (String × RedisValue))
    (hk : ∀ e ∈ entries, e.1 = k → removableVal env idCitizen e = true) :
    (entries.filter (fun e => e.1 ≠ k)).filter
        (fun e => !(decide (e.1 ∈ rest) && removableVal env idCitizen e))
      = entries.filter
          (fun e => !(decide (e.1 ∈ k :: rest) && removableVal env idCitizen e)) := by
  rw [List.filter_filter]
  apply List.filter_congr
  intro e he
  by_cases hek : e.1 = k
  · rw [hk e he hek]
    simp [hek]
  · have hmem : decide (e.1 ∈ k :: rest) = decide (e.1 ∈ rest) := by
      apply decide_eq_decide.mpr
      simp [List.mem_cons, hek]
    simp [hmem, hek]

lemma nodup_keys_filter {entries : List (String × RedisValue)}
    (h : (entries.map Prod.fst).Nodup) (q : String × RedisValue → Bool) :
    ((entries.filter q).map Prod.fst).Nodup :=
  List.Nodup.sublist (List.Sublist.map Prod.fst (List.filter_sublist entries)) h

lemma deleteUserTokensLoop_characterization (env : RedisEnv) (idCitizen : Int) :
    ∀ (keys : List String) (entries : List (String × RedisValue)),
      (entries.map Prod.fst).Nodup →
      deleteUserTokensLoop env idCitizen keys entries =
        entries.filter
          (fun e => !(decide (e.1 ∈ keys) && removableVal env idCitizen e)) := by
  intro keys
  induction keys with
  | nil =>
    intro entries _
    simp [deleteUserTokensLoop]
  | cons k rest ih =>
    intro entries hnd
    by_cases hget : k ∈ env.getErrKeys
    · have hstep : deleteUserTokensLoop env idCitizen (k :: rest) entries
          = deleteUserTokensLoop env idCitizen rest entries := by
        simp [deleteUserTokensLoop, redisGet, hget]
      rw [hstep, ih entries hnd, filter_keep_step]
      intro e _ hek
      simp [removableVal, hek, hget]
    · cases hfind : entries.find? (fun x => x.1 = k) with
      | none =>
        have hstep : deleteUserTokensLoop env idCitizen (k :: rest) entries
            = deleteUserTokensLoop env idCitizen rest entries := by
          simp [deleteUserTokensLoop, redisGet, hget, hfind]
        rw [hstep, ih entries hnd, filter_keep_step]
        intro e he hek
        have := List.find?_eq_none.mp hfind e he
        simp [hek] at this
      | some e0 =>
        have he0 := List.mem_of_find?_eq_some hfind
        have hk0 : e0.1 = k := by
          have := List.find?_some hfind
          simpa using this
        cases hval : e0.2 with
        | garbage =>
          have hstep : deleteUserTokensLoop env idCitizen (k :: rest) entries
              = deleteUserTokensLoop env idCitizen rest entries := by
            simp [deleteUserTokensLoop, redisGet, hget, hfind, hval]
          rw [hstep, ih entries hnd, filter_keep_step]
          intro e he hek
          have hee : e = e0 := key_unique hnd he he0 (by rw [hek, hk0])
          subst hee
          simp [removableVal, hval]
        | record d =>
          by_cases hid : d.idCitizen = idCitizen
          · by_cases hdel : k ∈ env.delErrKeys
            · have hstep : deleteUserTokensLoop env idCitizen (k :: rest) entries
                  = deleteUserTokensLoop env idCitizen rest entries := by
                simp [deleteUserTokensLoop, redisGet, redisDel, hget, hfind, hval,
                      hid, hdel]
              rw [hstep, ih entries hnd, filter_keep_step]
              intro e he hek
              have hee : e = e0 := key_unique hnd he he0 (by rw [hek, hk0])
              subst hee
              simp [removableVal, hk0, hdel]
            · have hstep : deleteUserTokensLoop env idCitizen (k :: rest) entries
                  = deleteUserTokensLoop env idCitizen rest
                      (entries.filter (fun e => e.1 ≠ k)) := by
                simp [deleteUserTokensLoop, redisGet, redisDel, hget, hfind, hval,
                      hid, hdel]
              rw [hstep, ih _ (nodup_keys_filter hnd _), filter_delete_step]
              intro e he hek
              have hee : e = e0 := key_unique hnd he he0 (by rw [hek, hk0])
              subst hee
              simp [removableVal, hk0, hval, hid, hget, hdel]
          · have hstep : deleteUserTokensLoop env idCitizen (k :: rest) entries
                = deleteUserTokensLoop env idCitizen rest entries := by
              simp [deleteUserTokensLoop, redisGet, hget, hfind, hval, hid]
            rw [hstep, ih entries hnd, filter_keep_step]
            intro e he hek
            have hee : e = e0 := key_unique hnd he he0 (by rw [hek, hk0])
            subst hee
            simp [removableVal, hval, hid]

/-- C10: DeleteUserTokens removes exactly the entries of the refresh_token
keyspace whose value can be read, deserializes to a record, carries the given
principal id, and whose DEL succeeds; unreadable or undeserializable values
are skipped, entries outside the scanned keyspace (the blacklist) and other
principals' records are untouched, and the operation errors exactly when the
scan iteration itself fails. -/
theorem C10_deleteUserTokens_exact_frame (env : RedisEnv)
    (entries : List (String × RedisValue)) (idCitizen : Int)
    (hnd : (entries.map Prod.fst).Nodup) :
    deleteUserTokens env entries idCitizen =
      (if env.scanErr then .error () else .ok (),
       entries.filter
         (fun e => !("refresh_token:".isPrefixOf e.1 && removableVal env idCitizen e))) := by
  unfold deleteUserTokens
  dsimp only
  rw [deleteUserTokensLoop_characterization env idCitizen _ entries hnd]
  refine congrArg _ ?_
  apply List.filter_congr
  intro e he
  suffices h : decide (e.1 ∈ (entries.filter
        (fun x => "refresh_token:".isPrefixOf x.1)).map Prod.fst)
      = "refresh_token:".isPrefixOf e.1 by
    rw [h]
  cases hpre : "refresh_token:".isPrefixOf e.1 with
  | false =>
    apply decide_eq_false
    intro hmem
    obtain ⟨x, hx, hxk⟩ := List.mem_map.mp hmem
    have hxp := (List.mem_filter.mp hx).2
    rw [hxk, hpre] at hxp
    cases hxp
  | true =>
    apply decide_eq_true
    exact List.mem_map.mpr ⟨e, List.mem_filter.mpr ⟨he, hpre⟩, rfl⟩

/-- Example fault model: one key's GET fails, no DEL fails, the scan
completes. -/
def exRedisEnv : RedisEnv :=
  { getErrKeys := ["refresh_token:g"], delErrKeys := [], scanErr := false }

/-- Example store contents: two principals' session records, one
undeserializable value, one unreadable key and one blacklist entry. -/
def exRedisEntries : List (String × RedisValue) :=
  [("refresh_token:a", .record { idCitizen := 7, email := "a@x", issuedAt := 0, expiresAt := 100 }),
   ("refresh_token:b", .record { idCitizen := 8, email := "b@x", issuedAt := 0, expiresAt := 100 }),
   ("refresh_token:c", .garbage),
   ("refresh_token:g", .record { idCitizen := 7, email := "g@x", issuedAt := 0, expiresAt := 100 }),
   ("blacklist:x", .garbage)]

/-- Witness for C10 at the concrete store: only principal 7's readable,
deserializable record is removed; the other principal's record, the garbage
value, the unreadable key and the blacklist entry survive, and the operation
succeeds. -/
theorem C10_deleteUserTokens_exact_frame_witness :
    ((exRedisEntries.map Prod.fst).Nodup) ∧
    deleteUserTokens exRedisEnv exRedisEntries 7 =
      (if exRedisEnv.scanErr then .error () else .ok (),
       exRedisEntries.filter
         (fun e => !("refresh_token:".isPrefixOf e.1 && removableVal exRedisEnv 7 e))) :=
  ⟨by decide,
   C10_deleteUserTokens_exact_frame exRedisEnv exRedisEntries 7 (by decide)⟩
